import Mathlib

/-!
Shallow embedding of the quiz generation pipeline of the AI-tutor
repository (file src/quiz_system.py): the response parser
QuizSystem._parse_text_response, the inline validator loop and the
difficulty_specs prompt construction written inside
QuizSystem._generate_quiz_questions, and the fallback generator
QuizSystem._get_fallback_questions. The enclosing function
_generate_quiz_questions itself is not modelled: its body has a doubled
try statement at lines 177-178, a Python syntax error that leaves the
module unimportable, so that function has no executable behavior to embed;
only its syntactically intact inner components are. Python strings are
modelled as Lean String, Python str.strip / str.split / str.startswith as
character-list functions below, and Python dict lookup as association-list
lookup.
-/

namespace QuizSystem

/-- Python str.strip() on the character list: drop whitespace at both ends. -/
def stripCore (s : List Char) : List Char :=
  ((s.dropWhile Char.isWhitespace).reverse.dropWhile Char.isWhitespace).reverse

/-- Python line.strip(): leading and trailing whitespace removed. -/
def pyStrip (s : String) : String :=
  String.mk (stripCore s.data)

/-- Python s.split(c, 1) on the character list: characters before the first
occurrence of c, and (when c occurs) the characters after it. -/
def breakOnChar (c : Char) : List Char → List Char × Option (List Char)
  | [] => ([], none)
  | x :: xs =>
    if x = c then ([], some xs)
    else
      let r := breakOnChar c xs
      (x :: r.1, r.2)

/-- True when the character occurs in the string (Python: c in s). -/
def containsChar (s : String) (c : Char) : Bool :=
  s.data.contains c

/-- Python s.split(c, 1)[1]: the text after the first occurrence of c,
empty when c does not occur (callers guard on occurrence). -/
def afterChar (c : Char) (s : String) : String :=
  String.mk (((breakOnChar c s.data).2).getD [])

/-- Python s.split(c) with no maxsplit, on the character list. -/
def splitOnCharCore (c : Char) : List Char → List (List Char)
  | [] => [[]]
  | x :: xs =>
    let r := splitOnCharCore c xs
    if x = c then [] :: r
    else
      match r with
      | [] => [[x]]
      | y :: ys => (x :: y) :: ys

/-- Python response.split(c): list of the pieces between occurrences of c. -/
def splitOnChar (c : Char) (s : String) : List String :=
  (splitOnCharCore c s.data).map String.mk

/-- Python p.startswith(q) as a prefix test on the character lists. -/
def strStartsWith (s p : String) : Bool :=
  p.data.isPrefixOf s.data

/-- Python s[n:] on the character list. -/
def strDrop (s : String) (n : Nat) : String :=
  String.mk (s.data.drop n)

/-- Python len(s). -/
def strLen (s : String) : Nat :=
  s.data.length

/-- Python s[0].isdigit() (false on the empty string; callers guard). -/
def firstIsDigit (s : String) : Bool :=
  match s.data with
  | [] => false
  | c :: _ => c.isDigit

/-- A parsed quiz question record, the dict shape built by
_parse_text_response and _get_fallback_questions. -/
structure Question where
  question : String
  options : List String
  correct_answer : String
  explanation : String
deriving DecidableEq

/-- The scanner state of _parse_text_response: the questions emitted so far
and the current_question / current_options / current_answer /
current_explanation variables. -/
structure ParseState where
  questions : List Question
  current_question : Option String
  current_options : List String
  current_answer : Option String
  current_explanation : Option String
deriving DecidableEq

/-- Python truthiness of an optional string: None and the empty string are
falsy. -/
def truthyStr : Option String → Bool
  | none => false
  | some s => decide (s ≠ "")

/-- The guard `if current_question and current_options and current_answer`. -/
def hasCompleteQuestion (st : ParseState) : Bool :=
  truthyStr st.current_question && !st.current_options.isEmpty
    && truthyStr st.current_answer

/-- Python `current_explanation or "No explanation provided."`: None and the
empty string both fall back to the default sentence. -/
def explanationOrDefault : Option String → String
  | some s => if s = "" then "No explanation provided." else s
  | none => "No explanation provided."

/-- Append the in-progress question to the emitted list when the guard
holds, as on lines 118-124 and 151-157 of quiz_system.py. -/
def emitCurrent (st : ParseState) : List Question :=
  if hasCompleteQuestion st then
    st.questions ++
      [{ question := st.current_question.getD ""
       , options := st.current_options
       , correct_answer := st.current_answer.getD ""
       , explanation := explanationOrDefault st.current_explanation }]
  else st.questions

/-- The 8 two-character option markers of the startswith tuple. -/
def optionMarkers : List String :=
  ["a)", "b)", "c)", "d)", "A)", "B)", "C)", "D)"]

/-- line.startswith((the 8 markers)). -/
def startsWithOptionMarker (s : String) : Bool :=
  optionMarkers.any (fun m => strStartsWith s m)

/-- `line[0].isdigit() and . in line and len(line.split(., 1)) > 1`. -/
def startsNewQuestion (line : String) : Bool :=
  firstIsDigit line && containsChar line '.'
    && ((breakOnChar '.' line.data).2).isSome

/-- The option-line guard: marker plus `len(line) > 2`. -/
def isOptionLine (line : String) : Bool :=
  startsWithOptionMarker line && decide (strLen line > 2)

/-- The answer-line guard on lines 138 of quiz_system.py. -/
def isAnswerLine (line : String) : Bool :=
  (strStartsWith line "Answer:" || strStartsWith line "Correct answer:")
    && ((breakOnChar ':' line.data).2).isSome

/-- The explanation-line guard on line 147 of quiz_system.py. -/
def isExplanationLine (line : String) : Bool :=
  strStartsWith line "Explanation:"
    && ((breakOnChar ':' line.data).2).isSome

/-- Lines 141-144: strip a leading 2-character option marker from the
answer text only when more than 2 characters are present. -/
def answerFromText (answer_text : String) : String :=
  if startsWithOptionMarker answer_text && decide (strLen answer_text > 2) then
    pyStrip (strDrop answer_text 2)
  else answer_text

/-- Empty scanner state at the top of _parse_text_response. -/
def initParseState : ParseState :=
  { questions := []
  , current_question := none
  , current_options := []
  , current_answer := none
  , current_explanation := none }

/-- One iteration of the parser loop (lines 108-148 of quiz_system.py):
strip the line, then apply the first matching rule. -/
def processLine (st : ParseState) (raw : String) : ParseState :=
  let line := pyStrip raw
  if line = "" then st
  else if startsNewQuestion line then
    { questions := emitCurrent st
    , current_question := some (pyStrip (afterChar '.' line))
    , current_options := []
    , current_answer := none
    , current_explanation := none }
  else if isOptionLine line then
    { st with current_options := st.current_options ++ [pyStrip (strDrop line 2)] }
  else if isAnswerLine line then
    { st with current_answer := some (answerFromText (pyStrip (afterChar ':' line))) }
  else if isExplanationLine line then
    { st with current_explanation := some (pyStrip (afterChar ':' line)) }
  else st

/-- The parser loop over an explicit line list, with the trailing emission
of lines 151-157. -/
def parseLines (lines : List String) : List Question :=
  emitCurrent (lines.foldl processLine initParseState)

/-- QuizSystem._parse_text_response: split the response on newlines and
scan. -/
def parse_text_response (response : String) : List Question :=
  parseLines (splitOnChar '\n' response)

/-- The validation condition of lines 304-308: exactly 4 options and the
correct answer is one of them (the isinstance checks are enforced by the
record type). -/
def isValidQuestion (q : Question) : Bool :=
  decide (q.options.length = 4) && q.options.contains q.correct_answer

/-- The validation loop of lines 300-313: append valid candidates, break as
soon as the validated list reaches num_questions. -/
def validateLoop (num_questions : Nat) (validated : List Question) :
    List Question → List Question
  | [] => validated
  | q :: rest =>
    let validated' := if isValidQuestion q then validated ++ [q] else validated
    if validated'.length = num_questions then validated'
    else validateLoop num_questions validated' rest

/-- The validator stage: run the loop from the empty accumulator. -/
def validateQuestions (num_questions : Nat) (questions : List Question) :
    List Question :=
  validateLoop num_questions [] questions

/-- The "Basic" entry of difficulty_templates (lines 397-409). -/
def basicTemplates (topic : String) : List Question :=
  [{ question := "What is the most fundamental concept in " ++ topic ++ "?"
   , options :=
     [ "Basic " ++ topic ++ " principles"
     , "Advanced " ++ topic ++ " concepts"
     , "Complex " ++ topic ++ " patterns"
     , topic ++ " optimization" ]
   , correct_answer := "Basic " ++ topic ++ " principles"
   , explanation :=
     "Understanding the basic principles is essential for learning " ++ topic ++ "." }]

/-- The "Beginner" entry of difficulty_templates (lines 410-422). -/
def beginnerTemplates (topic : String) : List Question :=
  [{ question := "Which of these is a common application of " ++ topic ++ "?"
   , options :=
     [ "Solving simple " ++ topic ++ " problems"
     , "Building complex systems"
     , "Optimizing performance"
     , "Managing distributed systems" ]
   , correct_answer := "Solving simple " ++ topic ++ " problems"
   , explanation :=
     "At the beginner level, focus is on applying " ++ topic ++ " to solve basic problems." }]

/-- The "Intermediate" entry of difficulty_templates (lines 423-435). -/
def intermediateTemplates (topic : String) : List Question :=
  [{ question := "What is an important consideration when implementing " ++ topic ++ "?"
   , options :=
     [ "Code efficiency and organization"
     , "Basic syntax"
     , "Simple loops"
     , "Print statements" ]
   , correct_answer := "Code efficiency and organization"
   , explanation :=
     "At the intermediate level, code quality and efficiency become important in " ++ topic ++ "." }]

/-- The "Advanced" entry of difficulty_templates (lines 436-448). -/
def advancedTemplates (topic : String) : List Question :=
  [{ question := "What is a critical factor when optimizing " ++ topic ++ " for scale?"
   , options :=
     [ "Performance and resource management"
     , "Basic functionality"
     , "Simple error handling"
     , "Console output" ]
   , correct_answer := "Performance and resource management"
   , explanation :=
     "At an advanced level, understanding performance implications and resource management is crucial in " ++ topic ++ "." }]

/-- Python dict lookup as association-list lookup (insertion order of the
literal dict). -/
def dictGet {α : Type} (table : List (String × α)) (key : String) : Option α :=
  (table.find? (fun p => p.1 == key)).map Prod.snd

/-- The difficulty_templates dict of _get_fallback_questions. -/
def difficulty_templates (topic : String) : List (String × List Question) :=
  [ ("Basic", basicTemplates topic)
  , ("Beginner", beginnerTemplates topic)
  , ("Intermediate", intermediateTemplates topic)
  , ("Advanced", advancedTemplates topic) ]

/-- Placeholder for out-of-range list indexing; never reached because every
template list is non-empty. -/
def emptyQuestion : Question :=
  { question := "", options := [], correct_answer := "", explanation := "" }

/-- QuizSystem._get_fallback_questions (lines 379-458): look the difficulty
up with default "Basic", then cycle the templates i mod len(templates). -/
def get_fallback_questions (topic : String) (num_questions : Nat)
    (difficulty : String) : List Question :=
  let templates :=
    (dictGet (difficulty_templates topic) difficulty).getD (basicTemplates topic)
  (List.range num_questions).map
    (fun i => templates.getD (i % templates.length) emptyQuestion)

/-- One entry of the difficulty_specs dict (lines 180-257). -/
structure DifficultySpec where
  description : String
  requirements : List String
  exampleText : String
deriving DecidableEq

/-- The "Basic" difficulty_specs entry. -/
def basicSpec : DifficultySpec :=
  { description := "Focus on fundamental concepts and simple syntax"
  , requirements :=
    [ "Test basic terminology and definitions"
    , "Use simple, straightforward questions"
    , "Focus on core concepts only"
    , "Avoid complex scenarios"
    , "Questions should be suitable for complete beginners" ]
  , exampleText := "\n1. What is machine learning?\na) A type of artificial intelligence that learns from data\nb) A programming language\nc) A type of computer hardware\nd) A database management system\n\nAnswer: a) A type of artificial intelligence that learns from data\nExplanation: Machine learning is a fundamental concept in AI that allows systems to learn and improve from experience." }

/-- The "Beginner" difficulty_specs entry. -/
def beginnerSpec : DifficultySpec :=
  { description := "Test understanding of core concepts with slight complexity"
  , requirements :=
    [ "Include basic problem-solving scenarios"
    , "Test practical applications"
    , "Use real-world examples"
    , "Cover common use cases"
    , "Questions should be suitable for those with basic knowledge" ]
  , exampleText := "\n1. Which type of machine learning is used for spam detection?\na) Supervised learning\nb) Quantum learning\nc) Manual learning\nd) Physical learning\n\nAnswer: a) Supervised learning\nExplanation: Spam detection uses supervised learning where the model is trained on labeled examples of spam and non-spam emails." }

/-- The "Intermediate" difficulty_specs entry. -/
def intermediateSpec : DifficultySpec :=
  { description := "Include problem-solving and practical applications"
  , requirements :=
    [ "Focus on implementation details"
    , "Include technical specifics"
    , "Test practical knowledge"
    , "Cover common challenges"
    , "Questions should require hands-on experience" ]
  , exampleText := "\n1. What problem might arise when using gradient descent with a learning rate that\x27s too high?\na) Overshooting the optimal solution\nb) Memory overflow\nc) CPU overheating\nd) Network timeout\n\nAnswer: a) Overshooting the optimal solution\nExplanation: A high learning rate can cause the algorithm to overshoot the optimal solution, leading to poor convergence or divergence." }

/-- The "Advanced" difficulty_specs entry. -/
def advancedSpec : DifficultySpec :=
  { description := "Focus on complex concepts and edge cases"
  , requirements :=
    [ "Include advanced technical concepts"
    , "Cover optimization techniques"
    , "Address edge cases and limitations"
    , "Test deep understanding"
    , "Questions should challenge experienced practitioners" ]
  , exampleText := "\n1. What potential issue could arise in a distributed machine learning system using asynchronous SGD?\na) Stale gradient updates affecting convergence\nb) Network latency improving accuracy\nc) Memory usage decreasing\nd) Training speed slowing down\n\nAnswer: a) Stale gradient updates affecting convergence\nExplanation: In asynchronous distributed SGD, some workers might compute gradients using outdated parameters, leading to stale updates that can affect convergence." }

/-- The difficulty_specs dict of _generate_quiz_questions. -/
def difficulty_specs : List (String × DifficultySpec) :=
  [ ("Basic", basicSpec)
  , ("Beginner", beginnerSpec)
  , ("Intermediate", intermediateSpec)
  , ("Advanced", advancedSpec) ]

/-- Failure of the prompt construction: Python raises KeyError when
difficulty is not a key of difficulty_specs; the spec names this outcome
InvalidDifficulty. -/
inductive PromptError where
  | InvalidDifficulty : PromptError
deriving DecidableEq

/-- Python `chr(10).join(- + req for req in requirements)`. -/
def joinRequirements (reqs : List String) : String :=
  String.intercalate "\n" (reqs.map (fun req => "- " ++ req))

/-- The prompt f-string of lines 260-287, with the two difficulty_specs
lookups that raise KeyError on an unknown difficulty. -/
def build_prompt (topic : String) (num_questions : Nat) (difficulty : String) :
    Except PromptError String :=
  match dictGet difficulty_specs difficulty with
  | none => Except.error PromptError.InvalidDifficulty
  | some spec =>
    Except.ok
      ("Generate " ++ toString num_questions ++ " multiple-choice questions about "
        ++ topic ++ " at " ++ difficulty ++ " level.\n\nDifficulty Level: "
        ++ difficulty ++ "\nDescription: " ++ spec.description
        ++ "\n\nRequirements for " ++ difficulty ++ " level questions:\n"
        ++ joinRequirements spec.requirements
        ++ "\n\nExample question at this difficulty level:\n" ++ spec.exampleText
        ++ "\n\nFormat each question exactly like the example above:\n1. Question text\na) Correct answer\nb) Wrong answer\nc) Wrong answer\nd) Wrong answer\n\nAnswer: a) Correct answer\nExplanation: Clear technical explanation\n\nImportant:\n1. Questions MUST match the "
        ++ difficulty ++ " level requirements\n2. All questions must be about "
        ++ topic
        ++ "\n3. Each question must have exactly 4 options\n4. Include detailed technical explanations\n5. Wrong answers should be plausible but clearly incorrect\n6. Questions should increase in complexity within this difficulty level")

/-- The closed difficulty set of the spec. -/
def difficultyTiers : List String :=
  ["Basic", "Beginner", "Intermediate", "Advanced"]

/-- A non-blank line that matches none of the recognized parser rules:
neither a digit-then-dot question start, nor an option-marker line, nor an
Answer / Correct answer line, nor an Explanation line. -/
def unrecognizedLine (raw : String) : Bool :=
  decide (pyStrip raw ≠ "") && !startsNewQuestion (pyStrip raw)
    && !isOptionLine (pyStrip raw) && !isAnswerLine (pyStrip raw)
    && !isExplanationLine (pyStrip raw)

/-- The keep-condition of the Validator exactly as the spec words it:
4 options, non-empty question text, non-empty answer, and the answer a
case-sensitive member of the options. Stated for comparison with the
condition isValidQuestion implemented in the code. -/
def specKeepCondition (q : Question) : Prop :=
  q.options.length = 4 ∧ q.question ≠ "" ∧ q.correct_answer ≠ ""
    ∧ q.correct_answer ∈ q.options

/-- A candidate with empty question text and empty answer whose (empty)
answer is one of its 4 options. -/
def emptyTextCandidate : Question :=
  { question := "", options := ["", "b", "c", "d"], correct_answer := ""
  , explanation := "e" }

/-- The string sub occurs contiguously inside s. -/
def hasSubstring (s sub : String) : Prop :=
  ∃ a b : String, s = a ++ sub ++ b

/-- Observer: the prompt construction returned a prompt. -/
def promptSucceeds (topic : String) (n : Nat) (difficulty : String) : Bool :=
  match build_prompt topic n difficulty with
  | Except.ok _ => true
  | Except.error _ => false

/-- Observer: the prompt construction failed with InvalidDifficulty. -/
def promptFailsInvalid (topic : String) (n : Nat) (difficulty : String) : Bool :=
  match build_prompt topic n difficulty with
  | Except.error PromptError.InvalidDifficulty => true
  | Except.ok _ => false

end QuizSystem

namespace QuizSystem

theorem processLine_of_unrecognized {raw : String}
    (h : unrecognizedLine raw = true) (st : ParseState) :
    processLine st raw = st := by
  simp only [unrecognizedLine, Bool.and_eq_true, decide_eq_true_eq,
    Bool.not_eq_true'] at h
  obtain ⟨⟨⟨⟨h0, h1⟩, h2⟩, h3⟩, h4⟩ := h
  simp [processLine, h0, h1, h2, h3, h4]

theorem dictGet_mem {α : Type} (table : List (String × α)) (key : String)
    (v : α) (h : dictGet table key = some v) : v ∈ table.map Prod.snd := by
  unfold dictGet at h
  rcases hf : table.find? (fun p => p.1 == key) with _ | p
  · rw [hf] at h; simp at h
  · rw [hf] at h
    simp only [Option.map_some', Option.some.injEq] at h
    exact List.mem_map.2 ⟨p, List.mem_of_find?_eq_some hf, h⟩

theorem validateLoop_eq_take_filter (num : Nat) :
    ∀ (l acc : List Question), acc.length < num →
      validateLoop num acc l = (acc ++ l.filter isValidQuestion).take num := by
  intro l
  induction l with
  | nil =>
    intro acc h
    simp only [validateLoop, List.filter_nil, List.append_nil]
    exact (List.take_of_length_le (Nat.le_of_lt h)).symm
  | cons q rest ih =>
    intro acc h
    by_cases hq : isValidQuestion q = true
    · simp only [validateLoop, hq, if_true, List.filter_cons_of_pos hq]
      by_cases hlen : (acc ++ [q]).length = num
      · rw [if_pos hlen, List.append_cons acc q (rest.filter isValidQuestion),
          ← hlen, List.take_append_eq_append_take]
        simp
      · rw [if_neg hlen, ih (acc ++ [q])
          (Nat.lt_of_le_of_ne (by simpa using Nat.succ_le_of_lt h) hlen),
          List.append_cons acc q (rest.filter isValidQuestion)]
    · rw [List.filter_cons_of_neg hq]
      simp only [Bool.not_eq_true] at hq
      simp only [validateLoop, hq, Bool.false_eq_true, if_false]
      rw [if_neg (Nat.ne_of_lt h), ih acc h]

theorem validateQuestions_eq_take_filter (num : Nat) (l : List Question)
    (h : 1 ≤ num) :
    validateQuestions num l = (l.filter isValidQuestion).take num := by
  have := validateLoop_eq_take_filter num l [] (by simpa using h)
  simpa [validateQuestions] using this

theorem mem_validateLoop (num : Nat) :
    ∀ (l acc : List Question) (q : Question), q ∈ validateLoop num acc l →
      q ∈ acc ∨ isValidQuestion q = true := by
  intro l
  induction l with
  | nil => intro acc q hq; exact Or.inl hq
  | cons p rest ih =>
    intro acc q hq
    by_cases hp : isValidQuestion p = true
    · simp only [validateLoop, hp, if_true] at hq
      by_cases hlen : (acc ++ [p]).length = num
      · rw [if_pos hlen] at hq
        rcases List.mem_append.1 hq with h | h
        · exact Or.inl h
        · simp only [List.mem_singleton] at h
          exact Or.inr (h ▸ hp)
      · rw [if_neg hlen] at hq
        rcases ih (acc ++ [p]) q hq with h | h
        · rcases List.mem_append.1 h with h2 | h2
          · exact Or.inl h2
          · simp only [List.mem_singleton] at h2
            exact Or.inr (h2 ▸ hp)
        · exact Or.inr h
    · simp only [Bool.not_eq_true] at hp
      simp only [validateLoop, hp, Bool.false_eq_true, if_false] at hq
      by_cases hlen : acc.length = num
      · rw [if_pos hlen] at hq; exact Or.inl hq
      · rw [if_neg hlen] at hq; exact ih acc q hq

theorem fallback_length (topic : String) (n : Nat) (difficulty : String) :
    (get_fallback_questions topic n difficulty).length = n := by
  simp [get_fallback_questions]

theorem specs_dictGet_of_mem (difficulty : String)
    (hd : difficulty ∈ difficultyTiers) :
    ∃ s, dictGet difficulty_specs difficulty = some s := by
  simp only [difficultyTiers, List.mem_cons, List.not_mem_nil, or_false] at hd
  rcases hd with rfl | rfl | rfl | rfl
  · exact ⟨basicSpec, rfl⟩
  · exact ⟨beginnerSpec, rfl⟩
  · exact ⟨intermediateSpec, rfl⟩
  · exact ⟨advancedSpec, rfl⟩

theorem specs_dictGet_of_not_mem (difficulty : String)
    (hd : difficulty ∉ difficultyTiers) :
    dictGet difficulty_specs difficulty = none := by
  simp only [difficultyTiers, List.mem_cons, List.not_mem_nil, or_false,
    not_or] at hd
  obtain ⟨h1, h2, h3, h4⟩ := hd
  have e1 : (("Basic" : String) == difficulty) = false :=
    beq_eq_false_iff_ne.mpr (Ne.symm h1)
  have e2 : (("Beginner" : String) == difficulty) = false :=
    beq_eq_false_iff_ne.mpr (Ne.symm h2)
  have e3 : (("Intermediate" : String) == difficulty) = false :=
    beq_eq_false_iff_ne.mpr (Ne.symm h3)
  have e4 : (("Advanced" : String) == difficulty) = false :=
    beq_eq_false_iff_ne.mpr (Ne.symm h4)
  simp [dictGet, difficulty_specs, List.find?, e1, e2, e3, e4]

theorem templates_dictGet_of_not_mem (topic difficulty : String)
    (hd : difficulty ∉ difficultyTiers) :
    dictGet (difficulty_templates topic) difficulty = none := by
  simp only [difficultyTiers, List.mem_cons, List.not_mem_nil, or_false,
    not_or] at hd
  obtain ⟨h1, h2, h3, h4⟩ := hd
  have e1 : (("Basic" : String) == difficulty) = false :=
    beq_eq_false_iff_ne.mpr (Ne.symm h1)
  have e2 : (("Beginner" : String) == difficulty) = false :=
    beq_eq_false_iff_ne.mpr (Ne.symm h2)
  have e3 : (("Intermediate" : String) == difficulty) = false :=
    beq_eq_false_iff_ne.mpr (Ne.symm h3)
  have e4 : (("Advanced" : String) == difficulty) = false :=
    beq_eq_false_iff_ne.mpr (Ne.symm h4)
  simp [dictGet, difficulty_templates, List.find?, e1, e2, e3, e4]

theorem templates_cases (topic difficulty : String) :
    (dictGet (difficulty_templates topic) difficulty).getD (basicTemplates topic)
        = basicTemplates topic ∨
      (dictGet (difficulty_templates topic) difficulty).getD (basicTemplates topic)
        = beginnerTemplates topic ∨
      (dictGet (difficulty_templates topic) difficulty).getD (basicTemplates topic)
        = intermediateTemplates topic ∨
      (dictGet (difficulty_templates topic) difficulty).getD (basicTemplates topic)
        = advancedTemplates topic := by
  rcases ho : dictGet (difficulty_templates topic) difficulty with _ | ts
  · left; simp
  · have hm := dictGet_mem _ _ _ ho
    simp only [difficulty_templates, List.map_cons, List.map_nil,
      List.mem_cons, List.not_mem_nil, or_false] at hm
    simp only [Option.getD_some]
    exact hm

theorem mem_fallback_shape (topic : String) (n : Nat) (difficulty : String)
    (q : Question) (hq : q ∈ get_fallback_questions topic n difficulty) :
    q ∈ basicTemplates topic ∨ q ∈ beginnerTemplates topic ∨
      q ∈ intermediateTemplates topic ∨ q ∈ advancedTemplates topic := by
  simp only [get_fallback_questions] at hq
  obtain ⟨i, _, rfl⟩ := List.mem_map.1 hq
  rcases templates_cases topic difficulty with h | h | h | h <;>
    rw [h] <;> simp [basicTemplates, beginnerTemplates, intermediateTemplates,
      advancedTemplates, Nat.mod_one]

theorem mem_fallback_props (topic : String) (n : Nat) (difficulty : String)
    (q : Question) (hq : q ∈ get_fallback_questions topic n difficulty) :
    q.options.length = 4 ∧ q.correct_answer = q.options.headD "" ∧
      q.correct_answer ∈ q.options ∧ ∃ a b, q.question = a ++ topic ++ b := by
  rcases mem_fallback_shape topic n difficulty q hq with h | h | h | h
  · simp only [basicTemplates, List.mem_singleton] at h
    subst h
    exact ⟨rfl, rfl, List.mem_cons_self _ _,
      "What is the most fundamental concept in ", "?", rfl⟩
  · simp only [beginnerTemplates, List.mem_singleton] at h
    subst h
    exact ⟨rfl, rfl, List.mem_cons_self _ _,
      "Which of these is a common application of ", "?", rfl⟩
  · simp only [intermediateTemplates, List.mem_singleton] at h
    subst h
    exact ⟨rfl, rfl, List.mem_cons_self _ _,
      "What is an important consideration when implementing ", "?", rfl⟩
  · simp only [advancedTemplates, List.mem_singleton] at h
    subst h
    exact ⟨rfl, rfl, List.mem_cons_self _ _,
      "What is a critical factor when optimizing ", " for scale?", rfl⟩

theorem build_prompt_ok_of_mem (topic : String) (n : Nat) (difficulty : String)
    (hd : difficulty ∈ difficultyTiers) :
    ∃ p, build_prompt topic n difficulty = Except.ok p := by
  obtain ⟨s, hs⟩ := specs_dictGet_of_mem difficulty hd
  exact ⟨_, by unfold build_prompt; rw [hs]⟩

theorem build_prompt_error_of_not_mem (topic : String) (n : Nat)
    (difficulty : String) (hd : difficulty ∉ difficultyTiers) :
    build_prompt topic n difficulty
      = Except.error PromptError.InvalidDifficulty := by
  have hs := specs_dictGet_of_not_mem difficulty hd
  unfold build_prompt
  rw [hs]

theorem range_map_getD {α : Type} (f : Nat → α) (n i : Nat) (d : α)
    (hi : i < n) : ((List.range n).map f).getD i d = f i := by
  have hl : i < ((List.range n).map f).length := by simpa using hi
  rw [List.getD_eq_getElem _ _ hl]
  simp

/-- C3: the single well-formed block yields exactly one candidate with
question "Q?", options X Y Z W in order, answer "X" and explanation "E". -/
theorem C3_parser_round_trip :
    parse_text_response
        "1. Q?\na) X\nb) Y\nc) Z\nd) W\n\nAnswer: a) X\nExplanation: E" =
      [{ question := "Q?", options := ["X", "Y", "Z", "W"]
       , correct_answer := "X", explanation := "E" }] := by
  decide

/-- C4: inserting a non-blank line matching none of the recognized rules at
any position in the line sequence leaves the parsed candidate sequence
unchanged. -/
theorem C4_unrecognized_lines_ignored (pre post : List String) (l : String)
    (hl : unrecognizedLine l = true) :
    parseLines (pre ++ l :: post) = parseLines (pre ++ post) := by
  unfold parseLines
  rw [List.foldl_append, List.foldl_append, List.foldl_cons,
    processLine_of_unrecognized hl]

/-- C4 witness: inserting a narrative sentence between the option lines of
a well-formed block leaves the parse unchanged. -/
theorem C4_witness :
    unrecognizedLine "The following questions test basics." = true ∧
      parseLines (["1. Q?", "a) X", "b) Y"]
          ++ "The following questions test basics."
          :: ["c) Z", "d) W", "Answer: a) X"]) =
        parseLines (["1. Q?", "a) X", "b) Y"]
          ++ ["c) Z", "d) W", "Answer: a) X"]) :=
  ⟨by decide,
    C4_unrecognized_lines_ignored ["1. Q?", "a) X", "b) Y"]
      ["c) Z", "d) W", "Answer: a) X"]
      "The following questions test basics." (by decide)⟩

/-- C5 counterexample: the validator keeps a candidate with empty question
text and empty answer (its empty answer being one of its 4 options), which
the claimed keep-condition requires it to reject: the claimed iff fails. -/
theorem C5_counterexample :
    validateQuestions 1 [emptyTextCandidate] = [emptyTextCandidate] ∧
      ¬ specKeepCondition emptyTextCandidate :=
  ⟨by decide, fun h => h.2.1 rfl⟩

/-- C5 amended: for count at least 1, the validator returns the order
preserving prefix-limited filter: candidates are kept iff they have exactly
4 options and their answer is an exact case-sensitive member of the options
(question text and answer need only be strings, emptiness is not checked);
acceptance stops after count kept candidates and no candidate is mutated. -/
theorem C5_validator_is_take_filter (num : Nat) (cands : List Question)
    (h : 1 ≤ num) :
    validateQuestions num cands = (cands.filter isValidQuestion).take num :=
  validateQuestions_eq_take_filter num cands h

/-- C5 witness: at count 1 on a two-candidate list the validator equals the
prefix-limited filter. -/
theorem C5_witness :
    validateQuestions 1 [emptyTextCandidate, emptyTextCandidate] =
      ([emptyTextCandidate, emptyTextCandidate].filter isValidQuestion).take 1 :=
  C5_validator_is_take_filter 1 [emptyTextCandidate, emptyTextCandidate]
    (by decide)

/-- C6 counterexample: on the line "Answer: a)" the substring after the
colon is exactly the marker "a)"; the code records it verbatim as the
answer, not the empty stripped remainder the claim asserts. -/
theorem C6_counterexample :
    (processLine initParseState "Answer: a)").current_answer = some "a)" ∧
      (processLine initParseState "Answer: a)").current_answer ≠ some "" := by
  decide

/-- C6 amended: an Answer or Correct answer line records the substring
after the first colon, trimmed, through answerFromText, which strips a
leading 2-character option marker only when the substring is longer than 2
characters; a substring that is exactly a marker is recorded verbatim. -/
theorem C6_answer_extraction_amended (st : ParseState) (raw : String)
    (h0 : pyStrip raw ≠ "")
    (h1 : startsNewQuestion (pyStrip raw) = false)
    (h2 : isOptionLine (pyStrip raw) = false)
    (h3 : isAnswerLine (pyStrip raw) = true) :
    processLine st raw =
        { st with current_answer := some (answerFromText (pyStrip (afterChar ':' (pyStrip raw)))) } ∧
      answerFromText "a)" = "a)" ∧ answerFromText "a) X" = "X" := by
  refine ⟨?_, by decide, by decide⟩
  simp [processLine, h0, h1, h2, h3]

/-- C6 witness: the line "Answer: b) Foo" sets the current answer through
answerFromText. -/
theorem C6_witness :
    processLine initParseState "Answer: b) Foo" =
        { initParseState with current_answer := some (answerFromText (pyStrip (afterChar ':' (pyStrip "Answer: b) Foo")))) } ∧
      answerFromText "a)" = "a)" ∧ answerFromText "a) X" = "X" :=
  C6_answer_extraction_amended initParseState "Answer: b) Foo" (by decide)
    (by decide) (by decide) (by decide)

/-- C7 counterexample: a line that is exactly the 2-character marker "a)"
is ignored by the parser: no option (in particular no empty option string)
is appended, contrary to the claim. -/
theorem C7_counterexample :
    (processLine initParseState "a)").current_options = [] ∧
      (processLine initParseState "a)").current_options ≠ [""] := by
  decide

/-- C7 amended: a line starting with one of the 8 option markers appends
the trimmed text after the marker only when the line is longer than 2
characters; a line that is exactly a marker matches no rule and is ignored,
appending nothing. -/
theorem C7_option_line_amended (st : ParseState) (raw : String)
    (h0 : pyStrip raw ≠ "")
    (h1 : startsNewQuestion (pyStrip raw) = false)
    (h2 : isOptionLine (pyStrip raw) = true) :
    processLine st raw =
        { st with current_options := st.current_options ++ [pyStrip (strDrop (pyStrip raw) 2)] } ∧
      processLine st "a)" = st ∧ processLine st "b)" = st ∧
      processLine st "c)" = st ∧ processLine st "d)" = st ∧
      processLine st "A)" = st ∧ processLine st "B)" = st ∧
      processLine st "C)" = st ∧ processLine st "D)" = st := by
  refine ⟨?_, rfl, rfl, rfl, rfl, rfl, rfl, rfl, rfl⟩
  simp [processLine, h0, h1, h2]

/-- C7 witness: the line "a) Foo" appends the option "Foo" and the bare
markers are ignored. -/
theorem C7_witness :
    processLine initParseState "a) Foo" =
        { initParseState with current_options := initParseState.current_options ++ [pyStrip (strDrop (pyStrip "a) Foo") 2)] } ∧
      processLine initParseState "a)" = initParseState ∧
      processLine initParseState "b)" = initParseState ∧
      processLine initParseState "c)" = initParseState ∧
      processLine initParseState "d)" = initParseState ∧
      processLine initParseState "A)" = initParseState ∧
      processLine initParseState "B)" = initParseState ∧
      processLine initParseState "C)" = initParseState ∧
      processLine initParseState "D)" = initParseState :=
  C7_option_line_amended initParseState "a) Foo" (by decide) (by decide)
    (by decide)

/-- C8: for every topic, count and difficulty in the four-tier table, the
fallback generator succeeds with exactly count questions, the i-th being
the template at index i mod len(templates) of the (singleton) table for
that difficulty, each with 4 options, first option as correct answer, and
the literal topic interpolated into the question text. -/
theorem C8_fallback_template_cycle (topic : String) (n : Nat)
    (difficulty : String) (i : Nat) (hd : difficulty ∈ difficultyTiers)
    (hi : i < n) :
    (dictGet (difficulty_templates topic) difficulty).isSome = true ∧
      ((dictGet (difficulty_templates topic) difficulty).getD
          (basicTemplates topic)).length = 1 ∧
      (get_fallback_questions topic n difficulty).length = n ∧
      (get_fallback_questions topic n difficulty).getD i emptyQuestion =
        ((dictGet (difficulty_templates topic) difficulty).getD
            (basicTemplates topic)).getD
          (i % ((dictGet (difficulty_templates topic) difficulty).getD
            (basicTemplates topic)).length) emptyQuestion ∧
      ((get_fallback_questions topic n difficulty).getD i
          emptyQuestion).options.length = 4 ∧
      ((get_fallback_questions topic n difficulty).getD i
          emptyQuestion).correct_answer =
        ((get_fallback_questions topic n difficulty).getD i
          emptyQuestion).options.headD "" ∧
      hasSubstring ((get_fallback_questions topic n difficulty).getD i
        emptyQuestion).question topic := by
  have hl : i < (get_fallback_questions topic n difficulty).length := by
    rw [fallback_length]; exact hi
  have hmem : (get_fallback_questions topic n difficulty).getD i emptyQuestion
      ∈ get_fallback_questions topic n difficulty := by
    rw [List.getD_eq_getElem _ _ hl]
    exact List.getElem_mem hl
  obtain ⟨h4, hcorr, _, hsub⟩ := mem_fallback_props topic n difficulty _ hmem
  simp only [difficultyTiers, List.mem_cons, List.not_mem_nil, or_false] at hd
  rcases hd with rfl | rfl | rfl | rfl
  · refine ⟨rfl, rfl, fallback_length _ _ _, ?_, h4, hcorr, hsub⟩
    rw [show get_fallback_questions topic n "Basic"
        = (List.range n).map (fun j => (basicTemplates topic).getD
          (j % (basicTemplates topic).length) emptyQuestion) from rfl,
      range_map_getD _ n i _ hi]
    rfl
  · refine ⟨rfl, rfl, fallback_length _ _ _, ?_, h4, hcorr, hsub⟩
    rw [show get_fallback_questions topic n "Beginner"
        = (List.range n).map (fun j => (beginnerTemplates topic).getD
          (j % (beginnerTemplates topic).length) emptyQuestion) from rfl,
      range_map_getD _ n i _ hi]
    rfl
  · refine ⟨rfl, rfl, fallback_length _ _ _, ?_, h4, hcorr, hsub⟩
    rw [show get_fallback_questions topic n "Intermediate"
        = (List.range n).map (fun j => (intermediateTemplates topic).getD
          (j % (intermediateTemplates topic).length) emptyQuestion) from rfl,
      range_map_getD _ n i _ hi]
    rfl
  · refine ⟨rfl, rfl, fallback_length _ _ _, ?_, h4, hcorr, hsub⟩
    rw [show get_fallback_questions topic n "Advanced"
        = (List.range n).map (fun j => (advancedTemplates topic).getD
          (j % (advancedTemplates topic).length) emptyQuestion) from rfl,
      range_map_getD _ n i _ hi]
    rfl

/-- C8 witness: topic "graphs", count 5, difficulty "Basic", index 3. -/
theorem C8_witness :
    (dictGet (difficulty_templates "graphs") "Basic").isSome = true ∧
      ((dictGet (difficulty_templates "graphs") "Basic").getD
          (basicTemplates "graphs")).length = 1 ∧
      (get_fallback_questions "graphs" 5 "Basic").length = 5 ∧
      (get_fallback_questions "graphs" 5 "Basic").getD 3 emptyQuestion =
        ((dictGet (difficulty_templates "graphs") "Basic").getD
            (basicTemplates "graphs")).getD
          (3 % ((dictGet (difficulty_templates "graphs") "Basic").getD
            (basicTemplates "graphs")).length) emptyQuestion ∧
      ((get_fallback_questions "graphs" 5 "Basic").getD 3
          emptyQuestion).options.length = 4 ∧
      ((get_fallback_questions "graphs" 5 "Basic").getD 3
          emptyQuestion).correct_answer =
        ((get_fallback_questions "graphs" 5 "Basic").getD 3
          emptyQuestion).options.headD "" ∧
      hasSubstring ((get_fallback_questions "graphs" 5 "Basic").getD 3
        emptyQuestion).question "graphs" :=
  C8_fallback_template_cycle "graphs" 5 "Basic" 3 (by decide) (by decide)

/-- C9: the prompt construction succeeds exactly on the closed difficulty
set Basic, Beginner, Intermediate, Advanced, and on every other difficulty
fails with the InvalidDifficulty error and no other outcome. -/
theorem C9_prompt_builder_closed_enum (topic : String) (n : Nat)
    (difficulty : String) :
    promptSucceeds topic n difficulty = decide (difficulty ∈ difficultyTiers) ∧
      promptFailsInvalid topic n difficulty
        = decide (difficulty ∉ difficultyTiers) := by
  by_cases hd : difficulty ∈ difficultyTiers
  · obtain ⟨p, hp⟩ := build_prompt_ok_of_mem topic n difficulty hd
    simp [promptSucceeds, promptFailsInvalid, hp, hd]
  · have hp := build_prompt_error_of_not_mem topic n difficulty hd
    simp [promptSucceeds, promptFailsInvalid, hp, hd]

/-- C10: an unknown difficulty reaching the fallback generator does not
fail: it yields exactly the Basic-tier questions, count of them. -/
theorem C10_fallback_unknown_difficulty (topic : String) (n : Nat)
    (difficulty : String) (hd : difficulty ∉ difficultyTiers) :
    get_fallback_questions topic n difficulty
        = get_fallback_questions topic n "Basic" ∧
      (get_fallback_questions topic n difficulty).length = n := by
  have h := templates_dictGet_of_not_mem topic difficulty hd
  refine ⟨?_, fallback_length topic n difficulty⟩
  unfold get_fallback_questions
  rw [h]
  rfl

/-- C10 witness: difficulty "Expert" is unknown and yields 3 Basic-tier
questions. -/
theorem C10_witness :
    get_fallback_questions "X" 3 "Expert" = get_fallback_questions "X" 3 "Basic" ∧
      (get_fallback_questions "X" 3 "Expert").length = 3 :=
  C10_fallback_unknown_difficulty "X" 3 "Expert" (by decide)

end QuizSystem

